import Mathlib

/-!
Shallow embedding of the ChoiceGroup selection-state controller
(`packages/components/src/components/form/choice-group/choice-group.tsx`).

`TChoiceGroupValue` mirrors the TypeScript union `string | string[] | null`;
an absent (`undefined`) prop is modelled with `Option`. JavaScript behaviours
the component's expressions rely on are modelled explicitly:
  the optional chain `currentValue?.length === 0` is `false` when the value is
  `null` (it compares `undefined` with a number), so `jsLength` returns
  `Option Nat` and the comparisons test against `some _`;
  the spread `[...nextValue, ...value]` spreads the string `value` into its
  one-character substrings (`stringSpread`);
  `if (defaultValue)` is a truthiness test (`jsTruthy`).
-/

/-- The TS union `string | string[] | null` of selection values. -/
inductive TChoiceGroupValue where
  | str : String → TChoiceGroupValue
  | arr : List String → TChoiceGroupValue
  | null : TChoiceGroupValue
  deriving DecidableEq, Repr

/-- The TS union `'radio' | 'checkbox'` (prop `inputType`). -/
inductive TChoiceGroupType where
  | radio : TChoiceGroupType
  | checkbox : TChoiceGroupType
  deriving DecidableEq, Repr

/-- The fields of `ChoiceGroupItemProps` that the controller reads: the item's
`value` (its key) and its `disabled` flag. -/
structure ChoiceGroupItemProps where
  value : String
  disabled : Bool
  deriving DecidableEq, Repr

/-- JS `v?.length`: `undefined` (here `none`) when `v` is `null`, else the
length of the string or array. -/
def jsLength : TChoiceGroupValue → Option Nat
  | .str s => some s.length
  | .arr l => some l.length
  | .null => none

/-- JS truthiness of a `TChoiceGroupValue`: `null` and the empty string are
falsy; every other string and every array (even the empty one) is truthy. -/
def jsTruthy : TChoiceGroupValue → Bool
  | .str s => !(s == "")
  | .arr _ => true
  | .null => false

/-- `items?.filter((item) => !item.disabled)?.length` (line 124). -/
def eligibleCount (items : List ChoiceGroupItemProps) : Nat :=
  (items.filter (fun item => !item.disabled)).length

/-- `isNoneSelected` (line 122): `currentValue?.length === 0`. -/
def isNoneSelected (cur : TChoiceGroupValue) : Bool :=
  jsLength cur == some 0

/-- `isAllSelected` (lines 123-126):
`currentValue?.length === items?.filter((item) => !item.disabled)?.length`. -/
def isAllSelected (cur : TChoiceGroupValue) (items : List ChoiceGroupItemProps) : Bool :=
  jsLength cur == some (eligibleCount items)

/-- `isSomeSelected` (line 127): `!isNoneSelected && !isAllSelected`. -/
def isSomeSelected (cur : TChoiceGroupValue) (items : List ChoiceGroupItemProps) : Bool :=
  !isNoneSelected cur && !isAllSelected cur items

/-- How many of the three derived flags hold at once on a given state. -/
def selectedFlagsCount (cur : TChoiceGroupValue) (items : List ChoiceGroupItemProps) : Nat :=
  (if isNoneSelected cur then 1 else 0)
    + (if isSomeSelected cur items then 1 else 0)
    + (if isAllSelected cur items then 1 else 0)

/-- JS array spread of a string: `[...s]` lists the one-character strings of
`s`, in order. -/
def stringSpread (s : String) : List String :=
  s.data.map (fun c => String.mk [c])

/-- The group's configuration as the handlers read it: `value = none` models
the `value` prop being `undefined`; `hasOnChange` records whether an `onChange`
callback was passed. -/
structure GroupConfig where
  inputType : TChoiceGroupType
  value : Option TChoiceGroupValue
  hasOnChange : Bool
  items : List ChoiceGroupItemProps
  deriving Repr

/-- `isValueControlled` (lines 116-118): `!!onChange && typeof value !== 'undefined'`. -/
def isValueControlled (g : GroupConfig) : Bool :=
  g.hasOnChange && g.value.isSome

/-- `currentValue` (line 120): the external value when controlled, else the
internal state. -/
def currentValue (g : GroupConfig) (innerValue : TChoiceGroupValue) : TChoiceGroupValue :=
  if isValueControlled g then g.value.getD innerValue else innerValue

/-- The next-value computation of `onChangeHandler` (lines 139-150). In
checkbox mode over an array value, checking appends `[...nextValue, ...value]`
(the string key is spread into characters) and unchecking filters
`item !== value`; every other case (radio mode, or a non-array current value)
replaces the whole value with the key. -/
def onChangeHandlerNext (inputType : TChoiceGroupType) (cur : TChoiceGroupValue)
    (value : String) (checked : Bool) : TChoiceGroupValue :=
  match inputType, cur with
  | .checkbox, .arr l =>
      if checked then .arr (l ++ stringSpread value)
      else .arr (l.filter (fun item => item != value))
  | _, _ => .str value

/-- A handler invocation's observable effect: the internal state it leaves
behind and the list of values passed to the `onChange` callback. -/
structure HandlerResult where
  innerValue : TChoiceGroupValue
  callbackCalls : List TChoiceGroupValue
  deriving DecidableEq, Repr

/-- `onChangeHandler` (lines 139-157): computes the next value, commits it to
the internal state unless the value is controlled, and notifies `onChange` when
present. -/
def onChangeHandlerRun (g : GroupConfig) (innerValue : TChoiceGroupValue)
    (value : String) (checked : Bool) : HandlerResult :=
  let next := onChangeHandlerNext g.inputType (currentValue g innerValue) value checked
  ⟨if isValueControlled g then innerValue else next,
   if g.hasOnChange then [next] else []⟩

/-- The next-value computation of `onIndeterminateChangeHandler` (line 190):
`!isAllSelected ? items?.filter((item) => !item.disabled)?.map((item) => item.value) : []`. -/
def onIndeterminateNextValue (g : GroupConfig) (cur : TChoiceGroupValue) : List String :=
  if isAllSelected cur g.items then []
  else (g.items.filter (fun item => !item.disabled)).map (fun item => item.value)

/-- `onIndeterminateChangeHandler` (lines 189-197): commits `[...nextValue]`
unless the value is controlled, and notifies `onChange` when present. -/
def onIndeterminateChangeHandlerRun (g : GroupConfig) (innerValue : TChoiceGroupValue) :
    HandlerResult :=
  let next := onIndeterminateNextValue g (currentValue g innerValue)
  ⟨if isValueControlled g then innerValue else .arr next,
   if g.hasOnChange then [.arr next] else []⟩

/-- The `React.useState` initializer of `innerValue` (lines 106-114): the seed
is `defaultValue` when that is truthy, else `[]` in checkbox mode and `null` in
radio mode. -/
def initInnerValue (defaultValue : Option TChoiceGroupValue) (inputType : TChoiceGroupType) :
    TChoiceGroupValue :=
  match defaultValue with
  | some dv =>
      if jsTruthy dv then dv
      else
        match inputType with
        | .checkbox => .arr []
        | .radio => .null
  | none =>
      match inputType with
      | .checkbox => .arr []
      | .radio => .null

/-- C1: evaluation at the failing input. Toggling the key `"ab"` on over the
empty checkbox selection appends the two one-character strings `"a"` and `"b"`
— `[...nextValue, ...value]` spreads the string key — and not the single new
element `"ab"` that the claim describes. -/
theorem C1_toggleOn_spreads_key_chars :
    onChangeHandlerNext .checkbox (.arr []) "ab" true = .arr ["a", "b"] ∧
    onChangeHandlerNext .checkbox (.arr []) "ab" true ≠ .arr ["ab"] := by
  decide

/-- C2: evaluation at the failing input. With no duplicate keys at all, toggling
`"ab"` on and then off over the empty selection ends at `["a", "b"]`, not at the
prior value `[]`: toggle-on spread the key into characters, and toggle-off's
filter `item !== "ab"` removes neither of them. -/
theorem C2_round_trip_fails :
    onChangeHandlerNext .checkbox
        (onChangeHandlerNext .checkbox (.arr []) "ab" true) "ab" false = .arr ["a", "b"] ∧
    onChangeHandlerNext .checkbox
        (onChangeHandlerNext .checkbox (.arr []) "ab" true) "ab" false ≠ .arr [] := by
  decide

/-- C3 counterexample: with a single disabled item and the (reachable, initial)
empty selection the eligible count is 0, so `isNoneSelected` and `isAllSelected`
hold simultaneously — two of the three flags hold, not exactly one. -/
theorem C3_none_and_all_coincide :
    isNoneSelected (.arr []) = true ∧
    isAllSelected (.arr []) [⟨"a", true⟩] = true ∧
    isSomeSelected (.arr []) [⟨"a", true⟩] = false ∧
    selectedFlagsCount (.arr []) [⟨"a", true⟩] = 2 := by
  decide

/-- C3 (amended): for every checkbox-mode array selection, unconditionally,
`isAllSelected` holds iff the selection's length equals the count of
non-disabled items and `isNoneSelected` holds iff it is 0; exactly one of the
three flags holds whenever at least one item is eligible, while with no
eligible item `isNoneSelected` and `isAllSelected` coincide on the empty
selection. -/
theorem C3_derived_flags (l : List String) (items : List ChoiceGroupItemProps) :
    (isAllSelected (.arr l) items = true ↔ l.length = eligibleCount items) ∧
    (isNoneSelected (.arr l) = true ↔ l.length = 0) ∧
    (eligibleCount items ≠ 0 → selectedFlagsCount (.arr l) items = 1) := by
  have hAll : isAllSelected (.arr l) items = true ↔ l.length = eligibleCount items := by
    simp [isAllSelected, jsLength]
  have hNone : isNoneSelected (.arr l) = true ↔ l.length = 0 := by
    simp [isNoneSelected, jsLength]
  refine ⟨hAll, hNone, fun h => ?_⟩
  by_cases h0 : l.length = 0
  · have hN : isNoneSelected (.arr l) = true := hNone.mpr h0
    have hA : isAllSelected (.arr l) items = false := by
      simp only [isAllSelected, jsLength, beq_eq_false_iff_ne, ne_eq, Option.some.injEq]
      omega
    simp [selectedFlagsCount, isSomeSelected, hN, hA]
  · have hN : isNoneSelected (.arr l) = false := by
      simp only [isNoneSelected, jsLength, beq_eq_false_iff_ne, ne_eq, Option.some.injEq]
      omega
    by_cases hac : l.length = eligibleCount items
    · have hA : isAllSelected (.arr l) items = true := hAll.mpr hac
      simp [selectedFlagsCount, isSomeSelected, hN, hA]
    · have hA : isAllSelected (.arr l) items = false := by
        simp only [isAllSelected, jsLength, beq_eq_false_iff_ne, ne_eq, Option.some.injEq]
        omega
      simp [selectedFlagsCount, isSomeSelected, hN, hA]

/-- C3 witness: the amended statement at one eligible item and a singleton
selection. -/
theorem C3_derived_flags_witness :
    (isAllSelected (.arr ["a"]) [⟨"a", false⟩] = true
        ↔ (["a"] : List String).length = eligibleCount [⟨"a", false⟩]) ∧
    (isNoneSelected (.arr ["a"]) = true ↔ (["a"] : List String).length = 0) ∧
    (eligibleCount [(⟨"a", false⟩ : ChoiceGroupItemProps)] ≠ 0
        → selectedFlagsCount (.arr ["a"]) [⟨"a", false⟩] = 1) :=
  C3_derived_flags ["a"] [⟨"a", false⟩]

/-- C4: when the aggregate toggle fires in the all-selected state the computed
next value is the empty selection, and otherwise it is exactly the keys of the
non-disabled items; every element of the computed value is the key of some
non-disabled item, so disabled items are excluded, and the result replaces the
current selection outright. -/
theorem C4_indeterminate_toggle (g : GroupConfig) (cur : TChoiceGroupValue) :
    (isAllSelected cur g.items = true → onIndeterminateNextValue g cur = []) ∧
    (isAllSelected cur g.items = false →
      onIndeterminateNextValue g cur
        = (g.items.filter (fun item => !item.disabled)).map (fun item => item.value)) ∧
    ∀ k ∈ onIndeterminateNextValue g cur,
      ∃ item ∈ g.items, item.disabled = false ∧ item.value = k := by
  refine ⟨fun hAll => ?_, fun hNot => ?_, ?_⟩
  · simp [onIndeterminateNextValue, hAll]
  · simp [onIndeterminateNextValue, hNot]
  · intro k hk
    unfold onIndeterminateNextValue at hk
    by_cases hA : isAllSelected cur g.items = true
    · simp [hA] at hk
    · rw [if_neg hA] at hk
      rcases List.mem_map.mp hk with ⟨item, hmem, hval⟩
      rcases List.mem_filter.mp hmem with ⟨hin, hdis⟩
      exact ⟨item, hin, by simpa using hdis, hval⟩

/-- C5: in radio mode the handler's next value is the key alone, whatever
`checked` and whatever the current selection; selecting key B after key A
therefore yields exactly B, never both. -/
theorem C5_radio_replaces (cur : TChoiceGroupValue) (kA kB : String) (cA cB : Bool) :
    onChangeHandlerNext .radio cur kA cA = .str kA ∧
    onChangeHandlerNext .radio (onChangeHandlerNext .radio cur kA cA) kB cB = .str kB := by
  cases cur <;> exact ⟨rfl, rfl⟩

/-- C6: for a controlled group (callback present and `value` supplied) both
mutation handlers leave the internal state unchanged and invoke the callback
exactly once — a singleton call list — with the fully computed next value. -/
theorem C6_controlled_frame (g : GroupConfig) (innerValue : TChoiceGroupValue)
    (key : String) (checked : Bool)
    (hcb : g.hasOnChange = true) (hval : g.value.isSome = true) :
    (onChangeHandlerRun g innerValue key checked).innerValue = innerValue ∧
    (onChangeHandlerRun g innerValue key checked).callbackCalls
      = [onChangeHandlerNext g.inputType (currentValue g innerValue) key checked] ∧
    (onIndeterminateChangeHandlerRun g innerValue).innerValue = innerValue ∧
    (onIndeterminateChangeHandlerRun g innerValue).callbackCalls
      = [.arr (onIndeterminateNextValue g (currentValue g innerValue))] := by
  have hc : isValueControlled g = true := by
    simp [isValueControlled, hcb, hval]
  refine ⟨?_, ?_, ?_, ?_⟩ <;>
    simp [onChangeHandlerRun, onIndeterminateChangeHandlerRun, hc, hcb]

/-- A concrete controlled checkbox group: callback present, value supplied. -/
def controlledConfig : GroupConfig :=
  ⟨.checkbox, some (.arr ["a"]), true, [⟨"a", false⟩, ⟨"b", false⟩]⟩

/-- C6 witness: the frame condition at a concrete controlled group. -/
theorem C6_controlled_frame_witness :
    (onChangeHandlerRun controlledConfig (.arr []) "b" true).innerValue = .arr [] ∧
    (onChangeHandlerRun controlledConfig (.arr []) "b" true).callbackCalls
      = [onChangeHandlerNext controlledConfig.inputType
          (currentValue controlledConfig (.arr [])) "b" true] ∧
    (onIndeterminateChangeHandlerRun controlledConfig (.arr [])).innerValue = .arr [] ∧
    (onIndeterminateChangeHandlerRun controlledConfig (.arr [])).callbackCalls
      = [.arr (onIndeterminateNextValue controlledConfig
          (currentValue controlledConfig (.arr [])))] :=
  C6_controlled_frame controlledConfig (.arr []) "b" true rfl rfl

/-- C7 counterexample: a `null` selection is not treated as zero selected —
`isNoneSelected` is `false` on `null` (optional chaining yields `undefined`,
and `undefined === 0` is `false`) while it is `true` on the empty array. -/
theorem C7_null_differs_from_empty :
    isNoneSelected .null = false ∧ isNoneSelected (.arr []) = true := by
  decide

/-- C7 (amended): the derivation does not treat `null` as an empty sequence —
on a `null` selection `isNoneSelected` and `isAllSelected` are both `false` and
`isSomeSelected` is `true`, for every item list — whereas the empty array and
the empty string do count as zero selected. -/
theorem C7_null_derivation (items : List ChoiceGroupItemProps) :
    isNoneSelected .null = false ∧
    isAllSelected .null items = false ∧
    isSomeSelected .null items = true ∧
    isNoneSelected (.arr []) = true ∧
    isNoneSelected (.str "") = true :=
  ⟨rfl, rfl, rfl, by decide, by decide⟩

/-- C8: when the controlled pair is incomplete (no callback, or `value` absent)
the group is uncontrolled: both mutation handlers commit the computed next
value to the internal state, and the callback, when present, is still invoked
once with that same value. -/
theorem C8_uncontrolled_commit (g : GroupConfig) (innerValue : TChoiceGroupValue)
    (key : String) (checked : Bool)
    (h : g.hasOnChange = false ∨ g.value = none) :
    (onChangeHandlerRun g innerValue key checked).innerValue
      = onChangeHandlerNext g.inputType innerValue key checked ∧
    (onChangeHandlerRun g innerValue key checked).callbackCalls
      = (if g.hasOnChange
          then [onChangeHandlerNext g.inputType innerValue key checked] else []) ∧
    (onIndeterminateChangeHandlerRun g innerValue).innerValue
      = .arr (onIndeterminateNextValue g innerValue) ∧
    (onIndeterminateChangeHandlerRun g innerValue).callbackCalls
      = (if g.hasOnChange then [.arr (onIndeterminateNextValue g innerValue)] else []) := by
  have hc : isValueControlled g = false := by
    rcases h with h | h <;> simp [isValueControlled, h]
  have hcur : currentValue g innerValue = innerValue := by
    simp [currentValue, hc]
  refine ⟨?_, ?_, ?_, ?_⟩ <;>
    simp [onChangeHandlerRun, onIndeterminateChangeHandlerRun, hc, hcur]

/-- A concrete uncontrolled checkbox group: callback present, `value` absent. -/
def uncontrolledConfig : GroupConfig :=
  ⟨.checkbox, none, true, [⟨"a", false⟩, ⟨"b", true⟩]⟩

/-- C8 witness: the commit-and-notify behaviour at a concrete group with a
callback but no `value` prop. -/
theorem C8_uncontrolled_commit_witness :
    (onChangeHandlerRun uncontrolledConfig (.arr ["a"]) "b" false).innerValue
      = onChangeHandlerNext uncontrolledConfig.inputType (.arr ["a"]) "b" false ∧
    (onChangeHandlerRun uncontrolledConfig (.arr ["a"]) "b" false).callbackCalls
      = (if uncontrolledConfig.hasOnChange
          then [onChangeHandlerNext uncontrolledConfig.inputType (.arr ["a"]) "b" false]
          else []) ∧
    (onIndeterminateChangeHandlerRun uncontrolledConfig (.arr ["a"])).innerValue
      = .arr (onIndeterminateNextValue uncontrolledConfig (.arr ["a"])) ∧
    (onIndeterminateChangeHandlerRun uncontrolledConfig (.arr ["a"])).callbackCalls
      = (if uncontrolledConfig.hasOnChange
          then [.arr (onIndeterminateNextValue uncontrolledConfig (.arr ["a"]))]
          else []) :=
  C8_uncontrolled_commit uncontrolledConfig (.arr ["a"]) "b" false (Or.inr rfl)

/-- C9 counterexample: a `defaultValue` that is given but falsy is not used as
the seed — `if (defaultValue)` is a JS truthiness test — so with the empty
string as `defaultValue` a radio group is seeded with `null` and a checkbox
group with `[]`, neither of which equals the given default. -/
theorem C9_falsy_default_ignored :
    initInnerValue (some (.str "")) .radio = .null ∧
    initInnerValue (some (.str "")) .checkbox = .arr [] ∧
    TChoiceGroupValue.null ≠ .str "" ∧
    TChoiceGroupValue.arr [] ≠ .str "" := by
  decide

/-- C9 (amended): the internal state is seeded from `defaultValue` exactly when
that value is truthy (a non-empty string, or any array); when the default is
absent — or given but falsy (`null` or the empty string) — the seed is `[]` in
checkbox mode and `null` in radio mode. -/
theorem C9_init_inner_value (dv : TChoiceGroupValue) (t : TChoiceGroupType)
    (h : jsTruthy dv = true) :
    initInnerValue (some dv) t = dv ∧
    initInnerValue none .checkbox = .arr [] ∧
    initInnerValue none .radio = .null ∧
    initInnerValue (some .null) t = initInnerValue none t ∧
    initInnerValue (some (.str "")) t = initInnerValue none t := by
  refine ⟨?_, rfl, rfl, ?_, ?_⟩
  · simp [initInnerValue, h]
  · cases t <;> rfl
  · cases t <;> rfl

/-- C9 witness: the amended seeding rule at concrete defaults in radio mode. -/
theorem C9_init_inner_value_witness :
    initInnerValue (some (.str "x")) .radio = .str "x" ∧
    initInnerValue none .checkbox = .arr [] ∧
    initInnerValue none .radio = .null ∧
    initInnerValue (some .null) .radio = initInnerValue none .radio ∧
    initInnerValue (some (.str "")) .radio = initInnerValue none .radio :=
  C9_init_inner_value (.str "x") .radio (by decide)

/-- C10: in checkbox mode toggling a key off filters out every occurrence of
that key, so afterwards the key is not a member of the computed next value even
if it occurred several times, while every other element survives. -/
theorem C10_toggle_off_removes_all (l : List String) (key : String) :
    onChangeHandlerNext .checkbox (.arr l) key false
      = .arr (l.filter (fun item => item != key)) ∧
    key ∉ l.filter (fun item => item != key) ∧
    ∀ x ∈ l, x ≠ key → x ∈ l.filter (fun item => item != key) := by
  refine ⟨rfl, ?_, ?_⟩
  · intro hmem
    rcases List.mem_filter.mp hmem with ⟨-, hne⟩
    simp at hne
  · intro x hx hne
    exact List.mem_filter.mpr ⟨hx, by simp [hne]⟩

/-- C10 witness: removing a duplicated key at a concrete input. -/
theorem C10_toggle_off_removes_all_witness :
    onChangeHandlerNext .checkbox (.arr ["a", "x", "a"]) "a" false
      = .arr (["a", "x", "a"].filter (fun item => item != "a")) ∧
    "a" ∉ ["a", "x", "a"].filter (fun item => item != "a") ∧
    ∀ x ∈ ["a", "x", "a"], x ≠ "a"
      → x ∈ ["a", "x", "a"].filter (fun item => item != "a") :=
  C10_toggle_off_removes_all ["a", "x", "a"] "a"
